import Mathlib

/-!
Shallow embedding of the ImageMix core (google/image_mix):
`spreadsheet_loader.py` (table parsing and layout resolution),
the entity model (`base_layer.py`, `image_layer.py`, `text_layer.py`,
`layout.py`, and `Canvas`, modelled from the spec since `canvas.py` is
not in the source tree), and the compositor (`layer_mixer.py`,
`image_mix_main.py`).

Python exceptions are embedded as `Except SheetError`; each distinct
`raise` site in the source gets its own `SheetError` constructor, and
`raise ... from error` is embedded by a constructor carrying the cause.
-/

namespace ImageMix

/-- Errors raised by the ImageMix core.  Each constructor corresponds to one
`raise` site of the Python source (`ValueError` with a particular message,
or `IndexError` from an out-of-range list access). -/
inductive SheetError where
  /-- Python `IndexError` from `row[i]` with `i` out of range. -/
  | indexError : SheetError
  /-- `int(cell)` failed on a non-numeric cell. -/
  | intParseError (cell : String) : SheetError
  /-- Entity `__post_init__` validation failure (message names the field). -/
  | invalidEntity (msg : String) : SheetError
  /-- `get_text_layers` / `get_image_layers` / `get_canvases` wrapping error:
  "Failed to create ... object from row {index+1} in the {tab} tab", with the
  underlying cause preserved (`raise ... from error`). -/
  | rowParseError (tab : String) (rowNumber : Nat) (cause : SheetError) : SheetError
  /-- "Layout tab must have a header and at least one record." -/
  | emptyLayoutTable : SheetError
  /-- "The spreadsheet needs to have at least one image layer record." -/
  | missingImageLayer : SheetError
  /-- "The spreadsheet needs to have at least one canvas." -/
  | missingCanvas : SheetError
  /-- `_validate_layout_row`: "A valid layout row cannot be empty." -/
  | emptyRow : SheetError
  /-- `_validate_layout_row`: wrong number of columns (expected 32). -/
  | wrongColumnCount (got : Nat) : SheetError
  /-- `_validate_layout_row`: one of the first three columns is empty. -/
  | missingMandatoryCells : SheetError
  /-- `_get_canvas_with_id_from_canvases`: no canvas matches the id. -/
  | canvasNotFound (canvasId : String) : SheetError
  /-- `_get_canvas_with_id_from_canvases`: more than one canvas matches. -/
  | ambiguousCanvas (canvasId : String) : SheetError
  /-- `_get_layers_from_layout_row`: id found in both image and text tabs. -/
  | ambiguousLayerOrigin (layerId : String) : SheetError
  /-- `_get_layers_from_layout_row`: id found in neither tab. -/
  | layerNotFound (layerId : String) : SheetError
  /-- `_get_layers_from_layout_row`: id matches more than one image-tab row. -/
  | duplicateImageLayerId (layerId : String) : SheetError
  /-- `_get_layers_from_layout_row`: id matches more than one text-tab row. -/
  | duplicateTextLayerId (layerId : String) : SheetError
  /-- `get_layouts` wrapping error: "Failed to create a layout object from row
  number {index+1}", with the underlying cause preserved (`raise ... from`). -/
  | layoutRowError (rowNumber : Nat) (cause : SheetError) : SheetError
  deriving DecidableEq, Repr

instance {ε α : Type} [DecidableEq ε] [DecidableEq α] : DecidableEq (Except ε α) :=
  fun a b =>
    match a, b with
    | .error e, .error e' =>
      if h : e = e' then .isTrue (by rw [h]) else .isFalse (by intro hc; cases hc; exact h rfl)
    | .ok x, .ok y =>
      if h : x = y then .isTrue (by rw [h]) else .isFalse (by intro hc; cases hc; exact h rfl)
    | .error _, .ok _ => .isFalse (by intro hc; cases hc)
    | .ok _, .error _ => .isFalse (by intro hc; cases hc)

/-- `canvas.Canvas`.  Modelled from the spec: `canvas.py` is absent from the
source tree (only `canvas_test.py` is present); the spec gives `canvas_id`
(non-empty string) and `width`, `height` (integers ≥ 0). -/
structure Canvas where
  canvas_id : String
  width : Int
  height : Int
  deriving DecidableEq, Repr

/-- Canvas construction.  Modelled from the spec: validation on construction,
`canvas_id` non-empty (as exercised by `canvas_test.py`), `width`/`height`
integers ≥ 0. -/
def mkCanvas (canvas_id : String) (width height : Int) : Except SheetError Canvas :=
  if canvas_id = "" then .error (.invalidEntity "canvas_id cannot be empty")
  else if width < 0 then .error (.invalidEntity "width must be a positive number")
  else if height < 0 then .error (.invalidEntity "height must be a positive number")
  else .ok ⟨canvas_id, width, height⟩

/-- `image_layer.ImageLayer` (with the `BaseLayer` fields inlined). -/
structure ImageLayer where
  layer_id : String
  position_x : Int
  position_y : Int
  width : Int
  height : Int
  file_path : String
  deriving DecidableEq, Repr

/-- `ImageLayer.__post_init__` (including `BaseLayer.__post_init__`, which
runs first): `layer_id` non-empty, positions ≥ 0, `file_path` non-empty,
`width`/`height` ≥ 0, in source order. -/
def mkImageLayer (layer_id : String) (position_x position_y : Int)
    (width height : Int) (file_path : String) : Except SheetError ImageLayer :=
  if layer_id = "" then .error (.invalidEntity "layer_id cannot be empty")
  else if position_x < 0 then .error (.invalidEntity "position_x must be a positive number")
  else if position_y < 0 then .error (.invalidEntity "position_y must be a positive number")
  else if file_path = "" then .error (.invalidEntity "file_path cannot be empty")
  else if width < 0 then .error (.invalidEntity "width must be a positive number")
  else if height < 0 then .error (.invalidEntity "height must be a positive number")
  else .ok ⟨layer_id, position_x, position_y, width, height, file_path⟩

/-- `text_layer.TextLayer` (with the `BaseLayer` fields inlined). -/
structure TextLayer where
  layer_id : String
  position_x : Int
  position_y : Int
  font_size : Int
  font_file_path : String
  color_r : Int
  color_g : Int
  color_b : Int
  text_content : String
  deriving DecidableEq, Repr

/-- `TextLayer.__post_init__` (including `BaseLayer.__post_init__`, which
runs first): `layer_id` non-empty, positions ≥ 0, `font_file_path` non-empty,
each color channel within [0, 255], `text_content` non-empty, in source
order. -/
def mkTextLayer (layer_id : String) (position_x position_y : Int)
    (font_size : Int) (font_file_path : String) (color_r color_g color_b : Int)
    (text_content : String) : Except SheetError TextLayer :=
  if layer_id = "" then .error (.invalidEntity "layer_id cannot be empty")
  else if position_x < 0 then .error (.invalidEntity "position_x must be a positive number")
  else if position_y < 0 then .error (.invalidEntity "position_y must be a positive number")
  else if font_file_path = "" then .error (.invalidEntity "font_file_path should not be empty.")
  else if color_r > 255 ∨ color_r < 0 then .error (.invalidEntity "color_r must be between 0 and 255 included.")
  else if color_g > 255 ∨ color_g < 0 then .error (.invalidEntity "color_g must be between 0 and 255 included.")
  else if color_b > 255 ∨ color_b < 0 then .error (.invalidEntity "color_b must be between 0 and 255 included.")
  else if text_content = "" then .error (.invalidEntity "text_content should not be empty.")
  else .ok ⟨layer_id, position_x, position_y, font_size, font_file_path,
            color_r, color_g, color_b, text_content⟩

/-- A `base_layer.BaseLayer` value as it flows through the compositor: either
an `ImageLayer`, a `TextLayer`, or some other subclass of the abstract base
(carrying only the base fields), which the compositor must ignore. -/
inductive Layer where
  | image (l : ImageLayer) : Layer
  | text (l : TextLayer) : Layer
  | other (layer_id : String) (position_x position_y : Int) : Layer
  deriving DecidableEq, Repr

/-- `layout.Layout`. -/
structure Layout where
  canvas : Canvas
  output_filename : String
  layers : List Layer
  deriving DecidableEq, Repr

/-- `Layout.__post_init__`: `output_filename` non-empty, `layers` non-empty.
(The source also tests `if not self.canvas`, but a dataclass instance is
always truthy in Python, so that branch can never fire.) -/
def mkLayout (canvas : Canvas) (output_filename : String) (layers : List Layer) :
    Except SheetError Layout :=
  if output_filename = "" then .error (.invalidEntity "output_finemame cannot be empty.")
  else if layers = [] then .error (.invalidEntity "layers cannot be empty.")
  else .ok ⟨canvas, output_filename, layers⟩

/-- Python `row[i]`: the cell at index `i`, or `IndexError`. -/
def getCell (row : List String) (i : Nat) : Except SheetError String :=
  match row.get? i with
  | none => .error .indexError
  | some c => .ok c

/-- The value of a decimal digit character (48 is the code point of `'0'`). -/
def digitVal? (c : Char) : Option Nat :=
  if '0' ≤ c ∧ c ≤ '9' then some (c.toNat - 48) else none

/-- Accumulate a decimal digit run; fails on a non-digit character. -/
def digitsToNat (acc : Nat) : List Char → Option Nat
  | [] => some acc
  | c :: cs =>
    match digitVal? c with
    | none => none
    | some d => digitsToNat (acc * 10 + d) cs

/-- A non-empty all-digit run as a natural number. -/
def parseDigits : List Char → Option Nat
  | [] => none
  | cs => digitsToNat 0 cs

/-- Python `int(s)` on a string cell: an optional sign followed by at least
one decimal digit, anything else is a `ValueError`.  (CPython also tolerates
surrounding whitespace and underscores between digits; the embedding keeps
to the plain literal grammar, which is all the claims depend on.) -/
def pyInt? (s : String) : Option Int :=
  match s.data with
  | '-' :: cs => (parseDigits cs).map (fun n => -(n : Int))
  | '+' :: cs => (parseDigits cs).map (fun n => (n : Int))
  | cs => (parseDigits cs).map (fun n => (n : Int))

/-- Python `int(cell)`: the integer value, or `ValueError` on a non-numeric
cell. -/
def parseIntCell (cell : String) : Except SheetError Int :=
  match pyInt? cell with
  | none => .error (.intParseError cell)
  | some n => .ok n

/-- Python `int(row[i])`. -/
def getIntCell (row : List String) (i : Nat) : Except SheetError Int := do
  let c ← getCell row i
  parseIntCell c

/-- Whether a path string starts with the separator `'/'`. -/
def startsWithSlash (s : String) : Bool :=
  match s.data with
  | '/' :: _ => true
  | _ => false

/-- Whether a path string ends with the separator `'/'`. -/
def endsWithSlash (s : String) : Bool :=
  match s.data.getLast? with
  | some '/' => true
  | _ => false

/-- Python `os.path.join(base, name)` for the two-argument POSIX case: an
absolute `name` wins; otherwise concatenate, inserting `'/'` unless `base`
is empty or already ends with one. -/
def pathJoin (base name : String) : String :=
  if startsWithSlash name then name
  else if base = "" then name
  else if endsWithSlash base then base ++ name
  else base ++ "/" ++ name

/-! ### Table parsing (`get_text_layers`, `get_image_layers`, `get_canvases`)

Each getter iterates `enumerate(all_rows)`; a row whose column 0 equals the
reserved header label is skipped (this check runs outside the `try`, so on an
empty row the `row[0]` `IndexError` propagates unwrapped); otherwise the row
is parsed inside a `try`, and any `ValueError`/`IndexError` is re-raised as
the table's wrapping error carrying `index + 1`. -/

/-- The body of one non-header row of the TEXT_LAYER tab: column accesses and
`int` coercions in Python argument-evaluation order, then
`TextLayer.__post_init__` validation. -/
def parseTextRow (default_font_file_path : String) (row : List String) :
    Except SheetError TextLayer := do
  let layer_id ← getCell row 0
  let position_x ← getIntCell row 5
  let position_y ← getIntCell row 6
  let font_size ← getIntCell row 1
  let color_r ← getIntCell row 2
  let color_g ← getIntCell row 3
  let color_b ← getIntCell row 4
  let text_content ← getCell row 7
  mkTextLayer layer_id position_x position_y font_size default_font_file_path
    color_r color_g color_b text_content

/-- The body of one non-header row of the IMAGE_LAYER tab. -/
def parseImageRow (image_directory_path : String) (row : List String) :
    Except SheetError ImageLayer := do
  let layer_id ← getCell row 0
  let position_x ← getIntCell row 3
  let position_y ← getIntCell row 4
  let width ← getIntCell row 1
  let height ← getIntCell row 2
  let file_name ← getCell row 5
  mkImageLayer layer_id position_x position_y width height
    (pathJoin image_directory_path file_name)

/-- The body of one non-header row of the CANVAS tab. -/
def parseCanvasRow (row : List String) : Except SheetError Canvas := do
  let canvas_id ← getCell row 0
  let width ← getIntCell row 1
  let height ← getIntCell row 2
  mkCanvas canvas_id width height

/-- The shared `for index, row in enumerate(all_rows)` loop of the three table
getters: skip header rows (column 0 equal to `headerLabel`; `IndexError` on an
empty row escapes unwrapped), parse each remaining row with `parseRow`, and
wrap any row failure as `rowParseError tab (index+1) cause`.  `index` is the
0-based index of the current head row within the raw table. -/
def parseTab (tab : String) (headerLabel : String)
    (parseRow : List String → Except SheetError α) :
    List (List String) → Nat → Except SheetError (List α)
  | [], _ => .ok []
  | row :: rest, index =>
    match row.get? 0 with
    | none => .error .indexError
    | some c0 =>
      if c0 = headerLabel then
        parseTab tab headerLabel parseRow rest (index + 1)
      else
        match parseRow row with
        | .error e => .error (.rowParseError tab (index + 1) e)
        | .ok a =>
          match parseTab tab headerLabel parseRow rest (index + 1) with
          | .error e => .error e
          | .ok as => .ok (a :: as)

/-- `SpreadSheetLoader.get_text_layers`, as a function of the raw rows of the
TEXT_LAYER tab (the spreadsheet fetch is the external collaborator). -/
def get_text_layers (default_font_file_path : String)
    (all_rows_text_layer : List (List String)) : Except SheetError (List TextLayer) :=
  parseTab "TEXT_LAYER" "layer_id" (parseTextRow default_font_file_path)
    all_rows_text_layer 0

/-- `SpreadSheetLoader.get_image_layers`. -/
def get_image_layers (image_directory_path : String)
    (all_rows_image_layer : List (List String)) : Except SheetError (List ImageLayer) :=
  parseTab "IMAGE_LAYER" "layer_id" (parseImageRow image_directory_path)
    all_rows_image_layer 0

/-- `SpreadSheetLoader.get_canvases`. -/
def get_canvases (all_rows_canvas : List (List String)) :
    Except SheetError (List Canvas) :=
  parseTab "CANVAS" "canvas_id" parseCanvasRow all_rows_canvas 0

/-! ### Layout resolution (`get_layouts` and its helpers) -/

/-- `_NUMBER_OF_COLUMNS_IN_LAYOUT_TAB`. -/
def numberOfColumnsInLayoutTab : Nat := 32

/-- `SpreadSheetLoader._validate_layout_row`: the row must be non-empty, have
exactly 32 columns, and have its first three cells non-empty. -/
def validate_layout_row (row : List String) : Except SheetError Unit :=
  if row = [] then .error .emptyRow
  else if row.length ≠ numberOfColumnsInLayoutTab then .error (.wrongColumnCount row.length)
  else if row.getD 0 "" = "" ∨ row.getD 1 "" = "" ∨ row.getD 2 "" = "" then
    .error .missingMandatoryCells
  else .ok ()

/-- `SpreadSheetLoader._get_canvas_with_id_from_canvases`: filter the canvas
list by id; no match and multiple matches are errors. -/
def get_canvas_with_id_from_canvases (canvas_id : String) (canvases : List Canvas) :
    Except SheetError Canvas :=
  match canvases.filter (fun canvas => canvas.canvas_id = canvas_id) with
  | [] => .error (.canvasNotFound canvas_id)
  | [canvas] => .ok canvas
  | _ :: _ :: _ => .error (.ambiguousCanvas canvas_id)

/-- The body of one iteration of the `_get_layers_from_layout_row` loop: look
up `layer_id` in both tables; both-present, neither-present and
duplicate-within-one-table are errors, checked in source order; otherwise the
single image match (preferred) or text match is returned. -/
def resolveLayerId (layer_id : String) (text_layers : List TextLayer)
    (image_layers : List ImageLayer) : Except SheetError Layer :=
  let image_layer_match := image_layers.filter (fun x => x.layer_id = layer_id)
  let text_layer_match := text_layers.filter (fun x => x.layer_id = layer_id)
  if image_layer_match ≠ [] ∧ text_layer_match ≠ [] then
    .error (.ambiguousLayerOrigin layer_id)
  else if image_layer_match = [] ∧ text_layer_match = [] then
    .error (.layerNotFound layer_id)
  else if image_layer_match.length > 1 then
    .error (.duplicateImageLayerId layer_id)
  else if text_layer_match.length > 1 then
    .error (.duplicateTextLayerId layer_id)
  else
    match image_layer_match, text_layer_match with
    | img :: _, _ => .ok (.image img)
    | [], txt :: _ => .ok (.text txt)
    | [], [] => .error (.layerNotFound layer_id)

/-- The `for column_index in range(2, 32)` walk of
`_get_layers_from_layout_row`, recursing over the cells from column 2 onward
with `slots` counting the remaining indices of the fixed range.  Running out
of cells while slots remain is Python's `row[column_index]` `IndexError`; an
empty cell ends the walk with the layers accumulated so far. -/
def getLayersGo (text_layers : List TextLayer) (image_layers : List ImageLayer) :
    Nat → List String → Except SheetError (List Layer)
  | 0, _ => .ok []
  | _ + 1, [] => .error .indexError
  | slots + 1, layer_id :: rest =>
    if layer_id = "" then .ok []
    else
      match resolveLayerId layer_id text_layers image_layers with
      | .error e => .error e
      | .ok l =>
        match getLayersGo text_layers image_layers slots rest with
        | .error e => .error e
        | .ok ls => .ok (l :: ls)

/-- `SpreadSheetLoader._get_layers_from_layout_row`: walk the 30 layer-id
columns (indices 2 to 31) left to right. -/
def get_layers_from_layout_row (row : List String) (text_layers : List TextLayer)
    (image_layers : List ImageLayer) : Except SheetError (List Layer) :=
  getLayersGo text_layers image_layers 30 (row.drop 2)

/-- The body of the `try` block of one `get_layouts` row iteration: read the
output filename, resolve the canvas id, resolve the layer ids, construct the
`Layout`. -/
def layoutRowBody (text_layers : List TextLayer) (image_layers : List ImageLayer)
    (canvases : List Canvas) (row : List String) : Except SheetError Layout := do
  let output_filename := row.getD 0 ""
  let canvas ← get_canvas_with_id_from_canvases (row.getD 1 "") canvases
  let layers ← get_layers_from_layout_row row text_layers image_layers
  mkLayout canvas output_filename layers

/-- The `for index, row in enumerate(all_rows_layout)` loop of `get_layouts`:
`_validate_layout_row` runs outside the `try`, so its errors propagate
unwrapped; header rows (column 0 equal to `"output_filename"`) are then
skipped; any failure of the `try` body is wrapped as
`layoutRowError (index+1) cause`. -/
def layoutLoop (text_layers : List TextLayer) (image_layers : List ImageLayer)
    (canvases : List Canvas) : List (List String) → Nat → Except SheetError (List Layout)
  | [], _ => .ok []
  | row :: rest, index =>
    match validate_layout_row row with
    | .error e => .error e
    | .ok _ =>
      if row.getD 0 "" = "output_filename" then
        layoutLoop text_layers image_layers canvases rest (index + 1)
      else
        match layoutRowBody text_layers image_layers canvases row with
        | .error e => .error (.layoutRowError (index + 1) e)
        | .ok layout =>
          match layoutLoop text_layers image_layers canvases rest (index + 1) with
          | .error e => .error e
          | .ok layouts => .ok (layout :: layouts)

/-- The raw contents of the four spreadsheet tabs, as returned by the external
spreadsheet collaborator (`_get_all_values_for_tab`). -/
structure Spreadsheet where
  text_rows : List (List String)
  image_rows : List (List String)
  canvas_rows : List (List String)
  layout_rows : List (List String)
  deriving Repr

/-- `SpreadSheetLoader.get_layouts`: reject a layout tab with fewer than two
rows, parse the three entity tables, require at least one image layer and at
least one canvas, then resolve every layout row. -/
def get_layouts (image_directory_path default_font_file_path : String)
    (sheet : Spreadsheet) : Except SheetError (List Layout) :=
  if sheet.layout_rows.length < 2 then .error .emptyLayoutTable
  else
    match get_text_layers default_font_file_path sheet.text_rows with
    | .error e => .error e
    | .ok text_layers =>
      match get_image_layers image_directory_path sheet.image_rows with
      | .error e => .error e
      | .ok image_layers =>
        if image_layers = [] then .error .missingImageLayer
        else
          match get_canvases sheet.canvas_rows with
          | .error e => .error e
          | .ok canvases =>
            if canvases = [] then .error .missingCanvas
            else layoutLoop text_layers image_layers canvases sheet.layout_rows 0

/-! ### Compositor (`layer_mixer.py`, `image_mix_main.py`)

PIL rasters are embedded as a width, a height, and a row-major grid of RGBA
pixels.  `PIL.Image.new` has a concrete embedding (`imageNew`); the external
pixel operations that `LayerMixer` delegates to PIL (`Image.open`, `resize`,
`paste`, `alpha_composite`, truetype font loading, `ImageDraw.text`) are
abstracted as an environment of opaque functions, mirroring the spec's
treatment of image and font decoding as external collaborators. -/

/-- An RGBA pixel. -/
abbrev RGBA := Nat × Nat × Nat × Nat

/-- `_DEFAULT_BACKGROUND_RGBA_COLOR_WHITE = (255, 255, 255, 0)`:
fully transparent white. -/
def defaultBackgroundRGBAColorWhite : RGBA := (255, 255, 255, 0)

/-- An in-memory raster (PIL `Image`): row-major grid of pixels. -/
structure Img where
  width : Int
  height : Int
  pixels : List (List RGBA)
  deriving DecidableEq, Repr

/-- `PIL.Image.new(mode, (w, h), color)`: a `w × h` raster with every pixel
set to `color`. -/
def imageNew (width height : Int) (color : RGBA) : Img :=
  ⟨width, height, List.replicate height.toNat (List.replicate width.toNat color)⟩

/-- The PIL operations used by `LayerMixer`, treated as an opaque external
environment: `Image.open`, `Image.resize`, `Image.paste` (of a decoded image
onto a scratch canvas at a position), `Image.alpha_composite`, and
`ImageDraw.Draw(...).text` at a position with a text, an RGB color, and a
truetype font given by file path and size. -/
structure PILEnv where
  openImage : String → Img
  resize : Img → Int × Int → Img
  paste : Img → Img → Int × Int → Img
  alphaComposite : Img → Img → Img
  drawText : Img → Int × Int → String → Int × Int × Int → String → Int → Img

/-- `LayerMixer._add_image_layer`: open the source image, resize it to the
layer's size, paste it onto a fresh transparent-white scratch canvas of the
accumulated image's size at the layer's position, then alpha-composite the
scratch canvas over the accumulated image. -/
def addImageLayer (env : PILEnv) (image : Img) (layer : ImageLayer) : Img :=
  let image_binary := env.openImage layer.file_path
  let image_binary := env.resize image_binary (layer.width, layer.height)
  let layer_to_add :=
    env.paste (imageNew image.width image.height defaultBackgroundRGBAColorWhite)
      image_binary (layer.position_x, layer.position_y)
  env.alphaComposite image layer_to_add

/-- `LayerMixer._add_text_layer`: draw the text content onto the accumulated
image at the layer's position in the layer's RGB color with the truetype font
at the layer's font path and size. -/
def addTextLayer (env : PILEnv) (image : Img) (layer : TextLayer) : Img :=
  env.drawText image (layer.position_x, layer.position_y) layer.text_content
    (layer.color_r, layer.color_g, layer.color_b) layer.font_file_path layer.font_size

/-- One iteration of the `LayerMixer.add_layers` loop: the two `isinstance`
tests draw image and text layers; any other `BaseLayer` matches neither test
and leaves the accumulated image as it is. -/
def addLayer (env : PILEnv) (image : Img) : Layer → Img
  | .image l => addImageLayer env image l
  | .text l => addTextLayer env image l
  | .other _ _ _ => image

/-- `LayerMixer.add_layers`: fold the layers over the accumulated image in
sequence order. -/
def addLayers (env : PILEnv) (image : Img) (layers : List Layer) : Img :=
  layers.foldl (addLayer env) image

/-- The rendering loop of `ImageMixMain.generate_creatives`: for each layout,
construct a fresh `LayerMixer` whose buffer is a new transparent-white raster
of the layout's canvas size, then add the layout's layers.  (Saving the
result to disk is the external persistence collaborator.) -/
def generateCreatives (env : PILEnv) (layouts : List Layout) : List Img :=
  layouts.map (fun layout =>
    addLayers env
      (imageNew layout.canvas.width layout.canvas.height defaultBackgroundRGBAColorWhite)
      layout.layers)

/-! ### Theorems -/

/-- **C4** — Constructing a `TextElement` fails with a validation error
whenever any of `color_r`, `color_g`, `color_b` is strictly less than 0 or
strictly greater than 255, and construction succeeds (all other fields being
valid) when each channel is in [0, 255], in particular at the boundary values
0 and 255. -/
theorem textLayer_color_channel_bounds (layer_id font_file_path text_content : String)
    (position_x position_y font_size color_r color_g color_b : Int)
    (hid : layer_id ≠ "") (hx : 0 ≤ position_x) (hy : 0 ≤ position_y)
    (hf : font_file_path ≠ "") (ht : text_content ≠ "") :
    ((0 ≤ color_r ∧ color_r ≤ 255 ∧ 0 ≤ color_g ∧ color_g ≤ 255 ∧
        0 ≤ color_b ∧ color_b ≤ 255) →
      mkTextLayer layer_id position_x position_y font_size font_file_path
          color_r color_g color_b text_content =
        .ok ⟨layer_id, position_x, position_y, font_size, font_file_path,
             color_r, color_g, color_b, text_content⟩)
    ∧ ((color_r < 0 ∨ 255 < color_r ∨ color_g < 0 ∨ 255 < color_g ∨
        color_b < 0 ∨ 255 < color_b) →
      ∃ msg, mkTextLayer layer_id position_x position_y font_size font_file_path
          color_r color_g color_b text_content = .error (.invalidEntity msg)) := by
  constructor
  · rintro ⟨h1, h2, h3, h4, h5, h6⟩
    unfold mkTextLayer
    rw [if_neg hid, if_neg (by omega), if_neg (by omega), if_neg hf,
      if_neg (by omega), if_neg (by omega), if_neg (by omega), if_neg ht]
  · intro h
    unfold mkTextLayer
    rw [if_neg hid, if_neg (by omega), if_neg (by omega), if_neg hf]
    by_cases hr : color_r > 255 ∨ color_r < 0
    · rw [if_pos hr]; exact ⟨_, rfl⟩
    · rw [if_neg hr]
      by_cases hg : color_g > 255 ∨ color_g < 0
      · rw [if_pos hg]; exact ⟨_, rfl⟩
      · rw [if_neg hg]
        by_cases hb : color_b > 255 ∨ color_b < 0
        · rw [if_pos hb]; exact ⟨_, rfl⟩
        · exact absurd h (by omega)

/-- **C4 witness** — at the boundary channels (0, 255, 7) construction
succeeds; at channel 256 it fails with a validation error. -/
theorem textLayer_color_channel_bounds_witness :
    mkTextLayer "id" 0 0 12 "f.ttf" 0 255 7 "hi" =
      .ok ⟨"id", 0, 0, 12, "f.ttf", 0, 255, 7, "hi"⟩ ∧
    ∃ msg, mkTextLayer "id" 0 0 12 "f.ttf" 256 255 7 "hi" =
      .error (.invalidEntity msg) :=
  ⟨(textLayer_color_channel_bounds "id" "f.ttf" "hi" 0 0 12 0 255 7
      (by decide) (by decide) (by decide) (by decide) (by decide)).1 (by decide),
   (textLayer_color_channel_bounds "id" "f.ttf" "hi" 0 0 12 256 255 7
      (by decide) (by decide) (by decide) (by decide) (by decide)).2 (by decide)⟩

/-- Unfolding `getLayersGo` on a non-empty head cell. -/
lemma getLayersGo_cons (text_layers : List TextLayer) (image_layers : List ImageLayer)
    (n : Nat) (c : String) (rest : List String) (hc : c ≠ "") :
    getLayersGo text_layers image_layers (n + 1) (c :: rest) =
      match resolveLayerId c text_layers image_layers with
      | .error e => .error e
      | .ok l =>
        match getLayersGo text_layers image_layers n rest with
        | .error e => .error e
        | .ok ls => .ok (l :: ls) := by
  simp [getLayersGo, hc]

/-- Unfolding `getLayersGo` on an empty head cell: the walk stops. -/
lemma getLayersGo_empty_head (text_layers : List TextLayer)
    (image_layers : List ImageLayer) (n : Nat) (rest : List String) :
    getLayersGo text_layers image_layers (n + 1) ("" :: rest) = .ok [] := by
  simp [getLayersGo]

/-- The walk never looks past the first empty cell: the cells after it are
irrelevant to the result. -/
lemma getLayersGo_gap (text_layers : List TextLayer) (image_layers : List ImageLayer) :
    ∀ (p : List String) (n : Nat) (rest rest' : List String), "" ∉ p →
    getLayersGo text_layers image_layers n (p ++ "" :: rest) =
      getLayersGo text_layers image_layers n (p ++ "" :: rest') := by
  intro p
  induction p with
  | nil =>
    intro n rest rest' _
    cases n <;> simp [getLayersGo]
  | cons c p ih =>
    intro n rest rest' h
    have hc : c ≠ "" := fun hcc => h (by rw [hcc]; exact List.mem_cons_self "" p)
    have hp : "" ∉ p := fun hm => h (List.mem_cons_of_mem c hm)
    cases n with
    | zero => simp [getLayersGo]
    | succ n =>
      rw [List.cons_append, List.cons_append, getLayersGo_cons _ _ _ _ _ hc,
        getLayersGo_cons _ _ _ _ _ hc, ih n rest rest' hp]

/-- **C2** — For every layout row, the resolver walks the layer-id slots left
to right and stops at the first empty cell: a row with layer columns
`["bg", "", ...]` resolves to exactly the one layer `"bg"`; a row with layer
columns `["bg", "txt", "", ...]` resolves to exactly those two layers in
column order (bottom-to-top); cells appearing after an empty slot contribute
no layers and cause no error (the result does not depend on them). -/
theorem layout_row_layer_walk :
    (∀ (c0 c1 a : String) (text_layers : List TextLayer)
        (image_layers : List ImageLayer) (la : Layer),
      a ≠ "" → resolveLayerId a text_layers image_layers = .ok la →
      get_layers_from_layout_row (c0 :: c1 :: a :: List.replicate 29 "")
        text_layers image_layers = .ok [la])
    ∧ (∀ (c0 c1 a b : String) (text_layers : List TextLayer)
        (image_layers : List ImageLayer) (la lb : Layer),
      a ≠ "" → b ≠ "" →
      resolveLayerId a text_layers image_layers = .ok la →
      resolveLayerId b text_layers image_layers = .ok lb →
      get_layers_from_layout_row (c0 :: c1 :: a :: b :: List.replicate 28 "")
        text_layers image_layers = .ok [la, lb])
    ∧ (∀ (text_layers : List TextLayer) (image_layers : List ImageLayer)
        (p : List String) (n : Nat) (rest rest' : List String), "" ∉ p →
      getLayersGo text_layers image_layers n (p ++ "" :: rest) =
        getLayersGo text_layers image_layers n (p ++ "" :: rest')) := by
  refine ⟨?_, ?_, fun t i p n r r' h => getLayersGo_gap t i p n r r' h⟩
  · intro c0 c1 a text_layers image_layers la ha hres
    show getLayersGo text_layers image_layers 30 (a :: List.replicate 29 "") = .ok [la]
    rw [show (30 : Nat) = 29 + 1 from rfl, getLayersGo_cons _ _ _ _ _ ha, hres,
      show (List.replicate 29 "" : List String) = "" :: List.replicate 28 "" from rfl,
      show (29 : Nat) = 28 + 1 from rfl, getLayersGo_empty_head]
  · intro c0 c1 a b text_layers image_layers la lb ha hb hresa hresb
    show getLayersGo text_layers image_layers 30 (a :: b :: List.replicate 28 "")
      = .ok [la, lb]
    rw [show (30 : Nat) = 29 + 1 from rfl, getLayersGo_cons _ _ _ _ _ ha, hresa,
      show (29 : Nat) = 28 + 1 from rfl, getLayersGo_cons _ _ _ _ _ hb, hresb,
      show (List.replicate 28 "" : List String) = "" :: List.replicate 27 "" from rfl,
      show (28 : Nat) = 27 + 1 from rfl, getLayersGo_empty_head]

/-- **C2 witness** — concrete instances: one image layer `"bg"` and one text
layer `"txt"`; the singleton walk, the two-layer walk, and gap-independence
at a concrete row tail. -/
theorem layout_row_layer_walk_witness :
    get_layers_from_layout_row
        ("o" :: "c" :: "bg" :: List.replicate 29 "")
        [⟨"txt", 0, 0, 12, "f.ttf", 1, 2, 3, "x"⟩]
        [⟨"bg", 0, 0, 100, 50, "p.png"⟩] =
      .ok [.image ⟨"bg", 0, 0, 100, 50, "p.png"⟩]
    ∧ get_layers_from_layout_row
        ("o" :: "c" :: "bg" :: "txt" :: List.replicate 28 "")
        [⟨"txt", 0, 0, 12, "f.ttf", 1, 2, 3, "x"⟩]
        [⟨"bg", 0, 0, 100, 50, "p.png"⟩] =
      .ok [.image ⟨"bg", 0, 0, 100, 50, "p.png"⟩,
           .text ⟨"txt", 0, 0, 12, "f.ttf", 1, 2, 3, "x"⟩]
    ∧ getLayersGo [⟨"txt", 0, 0, 12, "f.ttf", 1, 2, 3, "x"⟩]
        [⟨"bg", 0, 0, 100, 50, "p.png"⟩] 30 (["bg"] ++ "" :: ["junk"]) =
      getLayersGo [⟨"txt", 0, 0, 12, "f.ttf", 1, 2, 3, "x"⟩]
        [⟨"bg", 0, 0, 100, 50, "p.png"⟩] 30 (["bg"] ++ "" :: []) :=
  ⟨layout_row_layer_walk.1 "o" "c" "bg" _ _ _ (by decide) (by decide),
   layout_row_layer_walk.2.1 "o" "c" "bg" "txt" _ _ _ _
     (by decide) (by decide) (by decide) (by decide),
   layout_row_layer_walk.2.2 _ _ ["bg"] 30 ["junk"] [] (by decide)⟩

/-- An id present in both tables resolves to the origin-ambiguity error, with
no hypothesis excluding duplicates within a table: the both-present check is
the first check of the lookup. -/
lemma resolveLayerId_both_present (layer_id : String) (text_layers : List TextLayer)
    (image_layers : List ImageLayer)
    (hi : image_layers.filter (fun x => x.layer_id = layer_id) ≠ [])
    (ht : text_layers.filter (fun x => x.layer_id = layer_id) ≠ []) :
    resolveLayerId layer_id text_layers image_layers =
      .error (.ambiguousLayerOrigin layer_id) := by
  unfold resolveLayerId
  rw [if_pos ⟨hi, ht⟩]

/-- A successful walk never looked up an id present in both tables. -/
lemma getLayersGo_ok_no_both (text_layers : List TextLayer)
    (image_layers : List ImageLayer) :
    ∀ (cells : List String) (n : Nat) (layers : List Layer),
      getLayersGo text_layers image_layers n cells = .ok layers →
      ∀ c ∈ (cells.take n).takeWhile (fun s => s ≠ ""),
        ¬(image_layers.filter (fun x => x.layer_id = c) ≠ [] ∧
          text_layers.filter (fun x => x.layer_id = c) ≠ []) := by
  intro cells
  induction cells with
  | nil => intro n layers _ c hc; simp at hc
  | cons c0 rest ih =>
    intro n layers hok c hc
    cases n with
    | zero => simp at hc
    | succ n =>
      by_cases hc0 : c0 = ""
      · subst hc0
        simp at hc
      · rw [getLayersGo_cons _ _ _ _ _ hc0] at hok
        simp only [List.take_succ_cons, List.takeWhile_cons, hc0] at hc
        rw [if_pos (by simp [hc0])] at hc
        cases hres : resolveLayerId c0 text_layers image_layers with
        | error e => rw [hres] at hok; cases hok
        | ok l =>
          rw [hres] at hok
          cases hrec : getLayersGo text_layers image_layers n rest with
          | error e => rw [hrec] at hok; cases hok
          | ok ls =>
            rcases List.mem_cons.mp hc with rfl | htail
            · rintro ⟨hi, ht⟩
              rw [resolveLayerId_both_present c text_layers image_layers hi ht] at hres
              cases hres
            · exact ih n ls hrec c htail

/-- **C3** — A layer id present in both the image-layer collection and the
text-layer collection always fails its lookup with the origin-ambiguity
error, regardless of table contents or order and before any
duplicate-within-one-table check (no hypothesis excludes duplicates); and a
layout-row walk that succeeds never walked such an id. -/
theorem ambiguous_layer_origin_precedence :
    (∀ (layer_id : String) (text_layers : List TextLayer)
        (image_layers : List ImageLayer),
      image_layers.filter (fun x => x.layer_id = layer_id) ≠ [] →
      text_layers.filter (fun x => x.layer_id = layer_id) ≠ [] →
      resolveLayerId layer_id text_layers image_layers =
        .error (.ambiguousLayerOrigin layer_id))
    ∧ (∀ (text_layers : List TextLayer) (image_layers : List ImageLayer)
        (cells : List String) (n : Nat) (layers : List Layer),
      getLayersGo text_layers image_layers n cells = .ok layers →
      ∀ c ∈ (cells.take n).takeWhile (fun s => s ≠ ""),
        ¬(image_layers.filter (fun x => x.layer_id = c) ≠ [] ∧
          text_layers.filter (fun x => x.layer_id = c) ≠ [])) :=
  ⟨resolveLayerId_both_present,
   fun t i cells n layers hok => getLayersGo_ok_no_both t i cells n layers hok⟩

/-- **C3 witness** — `"dup"` appears twice in the image table and once in the
text table: the lookup still reports origin ambiguity (not the duplicate-id
error); and a concrete successful walk implies no walked id is both-present. -/
theorem ambiguous_layer_origin_precedence_witness :
    resolveLayerId "dup" [⟨"dup", 0, 0, 12, "f.ttf", 1, 2, 3, "x"⟩]
        [⟨"dup", 0, 0, 1, 1, "a.png"⟩, ⟨"dup", 0, 0, 2, 2, "b.png"⟩] =
      .error (.ambiguousLayerOrigin "dup")
    ∧ ∀ c ∈ ((["bg", ""].take 30).takeWhile (fun s => s ≠ "")),
        ¬(([⟨"bg", 0, 0, 100, 50, "p.png"⟩] : List ImageLayer).filter
            (fun x => x.layer_id = c) ≠ [] ∧
          ([] : List TextLayer).filter (fun x => x.layer_id = c) ≠ []) :=
  ⟨ambiguous_layer_origin_precedence.1 "dup" _ _ (by decide) (by decide),
   ambiguous_layer_origin_precedence.2 [] [⟨"bg", 0, 0, 100, 50, "p.png"⟩]
     ["bg", ""] 30 [.image ⟨"bg", 0, 0, 100, 50, "p.png"⟩] (by decide)⟩

/-- A table whose every row carries the header label in its identifier column
parses to the empty list, whatever the start index. -/
lemma parseTab_all_header {α : Type} (tab label : String)
    (f : List String → Except SheetError α) :
    ∀ (rows : List (List String)) (k : Nat),
      (∀ row ∈ rows, row.get? 0 = some label) →
      parseTab tab label f rows k = .ok [] := by
  intro rows
  induction rows with
  | nil => intro k _; rfl
  | cons row rest ih =>
    intro k h
    have h0 : row.get? 0 = some label := h row (List.mem_cons_self _ _)
    unfold parseTab
    rw [h0]
    simp only [if_pos rfl]
    exact ih (k + 1) (fun r hr => h r (List.mem_cons_of_mem _ hr))

/-- Unfolding `parseTab` on a non-empty head row. -/
lemma parseTab_cons {α : Type} (tab label : String)
    (f : List String → Except SheetError α) (c0 : String) (cs : List String)
    (rest : List (List String)) (k : Nat) :
    parseTab tab label f ((c0 :: cs) :: rest) k =
      if c0 = label then parseTab tab label f rest (k + 1)
      else
        match f (c0 :: cs) with
        | .error e => .error (.rowParseError tab (k + 1) e)
        | .ok a =>
          match parseTab tab label f rest (k + 1) with
          | .error e => .error e
          | .ok as => .ok (a :: as) := rfl

/-- If some non-header row of the table fails to parse, the whole table parse
fails with the wrapping row-parse error naming the table and the 1-based index
(offset by the start index `k`) of a genuinely failing row, and no list is
returned. -/
lemma parseTab_fail {α : Type} (tab label : String)
    (f : List String → Except SheetError α) :
    ∀ (rows : List (List String)) (k : Nat), [] ∉ rows →
      (∃ row ∈ rows, row.get? 0 ≠ some label ∧ ∃ e0, f row = .error e0) →
      ∃ i e row, rows.get? i = some row ∧ row.get? 0 ≠ some label ∧
        f row = .error e ∧
        parseTab tab label f rows k = .error (.rowParseError tab (k + i + 1) e) := by
  intro rows
  induction rows with
  | nil => rintro k _ ⟨row, hmem, _⟩; cases hmem
  | cons row rest ih =>
    rintro k hne ⟨r, hrmem, hrhdr, e0, hrfail⟩
    obtain ⟨c0, cs, rfl⟩ : ∃ c0 cs, row = c0 :: cs := by
      cases row with
      | nil => exact absurd (List.mem_cons_self _ _) hne
      | cons c cs => exact ⟨c, cs, rfl⟩
    have hnerest : [] ∉ rest := fun h => hne (List.mem_cons_of_mem _ h)
    rw [parseTab_cons]
    by_cases hc : c0 = label
    · -- header row: the failing witness must be in the tail
      rw [if_pos hc]
      have hrtail : r ∈ rest := by
        rcases List.mem_cons.mp hrmem with rfl | htail
        · exact absurd (by simp [hc]) hrhdr
        · exact htail
      obtain ⟨i, e, r', hg, hh, hf, hp⟩ :=
        ih (k + 1) hnerest ⟨r, hrtail, hrhdr, e0, hrfail⟩
      refine ⟨i + 1, e, r', by simpa using hg, hh, hf, ?_⟩
      rw [show k + (i + 1) + 1 = k + 1 + i + 1 by omega]
      exact hp
    · rw [if_neg hc]
      cases hf : f (c0 :: cs) with
      | error e =>
        exact ⟨0, e, c0 :: cs, rfl, by simpa using hc, hf, rfl⟩
      | ok a =>
        have hrtail : r ∈ rest := by
          rcases List.mem_cons.mp hrmem with rfl | htail
          · rw [hf] at hrfail; cases hrfail
          · exact htail
        obtain ⟨i, e, r', hg, hh, hfr, hp⟩ :=
          ih (k + 1) hnerest ⟨r, hrtail, hrhdr, e0, hrfail⟩
        refine ⟨i + 1, e, r', by simpa using hg, hh, hfr, ?_⟩
        rw [show k + (i + 1) + 1 = k + 1 + i + 1 by omega]
        rw [hp]

/-- **C8** — For every table of kind Canvas, ImageElement or TextElement that
has zero data rows (it is fully empty, or every row's identifier column
equals the reserved header label), parsing returns the empty list and raises
no error. -/
theorem empty_tables_parse_to_empty :
    (∀ (font : String) (rows : List (List String)),
      (∀ row ∈ rows, row.get? 0 = some "layer_id") →
      get_text_layers font rows = .ok [])
    ∧ (∀ (dir : String) (rows : List (List String)),
      (∀ row ∈ rows, row.get? 0 = some "layer_id") →
      get_image_layers dir rows = .ok [])
    ∧ (∀ (rows : List (List String)),
      (∀ row ∈ rows, row.get? 0 = some "canvas_id") →
      get_canvases rows = .ok []) :=
  ⟨fun font rows h => parseTab_all_header _ _ _ rows 0 h,
   fun dir rows h => parseTab_all_header _ _ _ rows 0 h,
   fun rows h => parseTab_all_header _ _ _ rows 0 h⟩

/-- **C8 witness** — the fully empty text table and single-header-row image
and canvas tables all parse to the empty list. -/
theorem empty_tables_parse_to_empty_witness :
    get_text_layers "f.ttf" [] = .ok []
    ∧ get_image_layers "imgs"
        [["layer_id", "width", "height", "position_x", "position_y", "file_name"]] = .ok []
    ∧ get_canvases [["canvas_id", "width", "height"], ["canvas_id", "", ""]] = .ok [] :=
  ⟨empty_tables_parse_to_empty.1 "f.ttf" [] (by decide),
   empty_tables_parse_to_empty.2.1 "imgs" _ (by decide),
   empty_tables_parse_to_empty.2.2 _ (by decide)⟩

/-- **C5** — For every table parse (text layers, image layers, canvases) over
rows of a rectangular table (no empty row): if any non-header row fails
coercion or entity validation, the entire parse returns a single error naming
the table and the 1-based index (counted from the first raw row, header
included) of a failing row — no partial list is returned. -/
theorem table_parse_fail_fast :
    (∀ (font : String) (rows : List (List String)), [] ∉ rows →
      (∃ row ∈ rows, row.get? 0 ≠ some "layer_id" ∧
        ∃ e0, parseTextRow font row = .error e0) →
      ∃ i e row, rows.get? i = some row ∧ row.get? 0 ≠ some "layer_id" ∧
        parseTextRow font row = .error e ∧
        get_text_layers font rows = .error (.rowParseError "TEXT_LAYER" (i + 1) e))
    ∧ (∀ (dir : String) (rows : List (List String)), [] ∉ rows →
      (∃ row ∈ rows, row.get? 0 ≠ some "layer_id" ∧
        ∃ e0, parseImageRow dir row = .error e0) →
      ∃ i e row, rows.get? i = some row ∧ row.get? 0 ≠ some "layer_id" ∧
        parseImageRow dir row = .error e ∧
        get_image_layers dir rows = .error (.rowParseError "IMAGE_LAYER" (i + 1) e))
    ∧ (∀ (rows : List (List String)), [] ∉ rows →
      (∃ row ∈ rows, row.get? 0 ≠ some "canvas_id" ∧
        ∃ e0, parseCanvasRow row = .error e0) →
      ∃ i e row, rows.get? i = some row ∧ row.get? 0 ≠ some "canvas_id" ∧
        parseCanvasRow row = .error e ∧
        get_canvases rows = .error (.rowParseError "CANVAS" (i + 1) e)) := by
  refine ⟨fun font rows hne hex => ?_, fun dir rows hne hex => ?_, fun rows hne hex => ?_⟩
  all_goals {
    obtain ⟨i, e, row, hg, hh, hf, hp⟩ := parseTab_fail _ _ _ rows 0 hne hex
    rw [Nat.zero_add] at hp
    exact ⟨i, e, row, hg, hh, hf, hp⟩
  }

/-- **C5 witness** — a text table whose data row has a non-numeric
`font_size`, an image table whose data row is missing columns, and a canvas
table whose data row has a negative width all fail with the wrapping error at
row 2. -/
theorem table_parse_fail_fast_witness :
    (∃ i e row,
      [["layer_id", "font_size", "color_r", "color_g", "color_b",
        "position_x", "position_y", "text_content"],
       ["t1", "x", "1", "2", "3", "10", "20", "hi"]].get? i = some row ∧
      row.get? 0 ≠ some "layer_id" ∧ parseTextRow "f.ttf" row = .error e ∧
      get_text_layers "f.ttf"
        [["layer_id", "font_size", "color_r", "color_g", "color_b",
          "position_x", "position_y", "text_content"],
         ["t1", "x", "1", "2", "3", "10", "20", "hi"]] =
        .error (.rowParseError "TEXT_LAYER" (i + 1) e))
    ∧ (∃ i e row,
      [["layer_id", "width", "height", "position_x", "position_y", "file_name"],
       ["bg", "100", "50"]].get? i = some row ∧
      row.get? 0 ≠ some "layer_id" ∧ parseImageRow "imgs" row = .error e ∧
      get_image_layers "imgs"
        [["layer_id", "width", "height", "position_x", "position_y", "file_name"],
         ["bg", "100", "50"]] =
        .error (.rowParseError "IMAGE_LAYER" (i + 1) e))
    ∧ (∃ i e row,
      [["canvas_id", "width", "height"], ["c1", "-4", "50"]].get? i = some row ∧
      row.get? 0 ≠ some "canvas_id" ∧ parseCanvasRow row = .error e ∧
      get_canvases [["canvas_id", "width", "height"], ["c1", "-4", "50"]] =
        .error (.rowParseError "CANVAS" (i + 1) e)) :=
  ⟨table_parse_fail_fast.1 "f.ttf" _ (by decide)
      ⟨["t1", "x", "1", "2", "3", "10", "20", "hi"], by decide, by decide,
       .intParseError "x", by decide⟩,
   table_parse_fail_fast.2.1 "imgs" _ (by decide)
      ⟨["bg", "100", "50"], by decide, by decide, .indexError, by decide⟩,
   table_parse_fail_fast.2.2 _ (by decide)
      ⟨["c1", "-4", "50"], by decide, by decide,
       .invalidEntity "width must be a positive number", by decide⟩⟩

/-- `_validate_layout_row` can only fail with one of its three row-shape
errors. -/
lemma validate_layout_row_error_shape (row : List String) (e : SheetError)
    (h : validate_layout_row row = .error e) :
    e = .emptyRow ∨ (∃ n, e = .wrongColumnCount n) ∨ e = .missingMandatoryCells := by
  unfold validate_layout_row at h
  split_ifs at h with h1 h2 h3
  · cases h; simp
  · cases h; simp
  · cases h; simp

/-- `parseTab` on a row that is the empty list: the header check's `row[0]`
raises `IndexError`. -/
lemma parseTab_nil_row {α : Type} (tab label : String)
    (f : List String → Except SheetError α) (rest : List (List String)) (k : Nat) :
    parseTab tab label f ([] :: rest) k = .error .indexError := rfl

/-- A failing table parse can only fail with `indexError` (empty row at the
header check) or a wrapping `rowParseError` for its own table. -/
lemma parseTab_error_shape {α : Type} (tab label : String)
    (f : List String → Except SheetError α) :
    ∀ (rows : List (List String)) (k : Nat) (e : SheetError),
      parseTab tab label f rows k = .error e →
      e = .indexError ∨ ∃ n c, e = .rowParseError tab n c := by
  intro rows
  induction rows with
  | nil => intro k e h; simp [parseTab] at h
  | cons row rest ih =>
    intro k e h
    cases row with
    | nil =>
      rw [parseTab_nil_row] at h
      exact Or.inl (by injection h with h'; exact h'.symm)
    | cons c0 cs =>
      rw [parseTab_cons] at h
      split_ifs at h with hc
      · exact ih (k + 1) e h
      · cases hf : f (c0 :: cs) with
        | error e' =>
          rw [hf] at h
          simp at h
          exact Or.inr ⟨k + 1, e', h.symm⟩
        | ok a =>
          rw [hf] at h
          simp at h
          cases hp : parseTab tab label f rest (k + 1) with
          | error e'' =>
            rw [hp] at h
            simp at h
            exact h ▸ ih (k + 1) e'' hp
          | ok as => rw [hp] at h; simp at h

/-- Unfolding the `get_layouts` row loop on a non-empty row list. -/
lemma layoutLoop_cons (text_layers : List TextLayer) (image_layers : List ImageLayer)
    (canvases : List Canvas) (row : List String) (rest : List (List String))
    (index : Nat) :
    layoutLoop text_layers image_layers canvases (row :: rest) index =
      match validate_layout_row row with
      | .error e => .error e
      | .ok _ =>
        if row.getD 0 "" = "output_filename" then
          layoutLoop text_layers image_layers canvases rest (index + 1)
        else
          match layoutRowBody text_layers image_layers canvases row with
          | .error e => .error (.layoutRowError (index + 1) e)
          | .ok layout =>
            match layoutLoop text_layers image_layers canvases rest (index + 1) with
            | .error e => .error e
            | .ok layouts => .ok (layout :: layouts) := rfl

/-- A failing `get_layouts` row loop can only fail with a row-shape error
(propagated unwrapped from `_validate_layout_row`) or a wrapping
`layoutRowError`. -/
lemma layoutLoop_error_shape (text_layers : List TextLayer)
    (image_layers : List ImageLayer) (canvases : List Canvas) :
    ∀ (rows : List (List String)) (index : Nat) (e : SheetError),
      layoutLoop text_layers image_layers canvases rows index = .error e →
      e = .emptyRow ∨ (∃ n, e = .wrongColumnCount n) ∨ e = .missingMandatoryCells ∨
        ∃ n c, e = .layoutRowError n c := by
  intro rows
  induction rows with
  | nil => intro index e h; simp [layoutLoop] at h
  | cons row rest ih =>
    intro index e h
    rw [layoutLoop_cons] at h
    cases hv : validate_layout_row row with
    | error ev =>
      rw [hv] at h
      simp at h
      rcases validate_layout_row_error_shape row ev hv with h1 | ⟨n, h2⟩ | h3
      · exact Or.inl (h ▸ h1)
      · exact Or.inr (Or.inl ⟨n, h ▸ h2⟩)
      · exact Or.inr (Or.inr (Or.inl (h ▸ h3)))
    | ok u =>
      rw [hv] at h
      simp at h
      split_ifs at h with hhdr
      · exact ih (index + 1) e h
      · cases hb : layoutRowBody text_layers image_layers canvases row with
        | error eb =>
          rw [hb] at h
          simp at h
          exact Or.inr (Or.inr (Or.inr ⟨index + 1, eb, h.symm⟩))
        | ok layout =>
          rw [hb] at h
          simp at h
          cases hp : layoutLoop text_layers image_layers canvases rest (index + 1) with
          | error e'' =>
            rw [hp] at h
            simp at h
            exact h ▸ ih (index + 1) e'' hp
          | ok layouts => rw [hp] at h; simp at h

/-- If every row passes `_validate_layout_row` and some non-header row's
resolution body fails, the row loop fails with the wrapping `layoutRowError`
naming the 1-based index (offset by the start index `k`) of a genuinely
failing row, with the cause preserved. -/
lemma layoutLoop_fail (text_layers : List TextLayer) (image_layers : List ImageLayer)
    (canvases : List Canvas) :
    ∀ (rows : List (List String)) (k : Nat),
      (∀ row ∈ rows, validate_layout_row row = .ok ()) →
      (∃ row ∈ rows, row.getD 0 "" ≠ "output_filename" ∧
        ∃ e0, layoutRowBody text_layers image_layers canvases row = .error e0) →
      ∃ i e row, rows.get? i = some row ∧ row.getD 0 "" ≠ "output_filename" ∧
        layoutRowBody text_layers image_layers canvases row = .error e ∧
        layoutLoop text_layers image_layers canvases rows k =
          .error (.layoutRowError (k + i + 1) e) := by
  intro rows
  induction rows with
  | nil => rintro k _ ⟨row, hmem, _⟩; cases hmem
  | cons row rest ih =>
    rintro k hval ⟨r, hrmem, hrhdr, e0, hrfail⟩
    have hvrow : validate_layout_row row = .ok () := hval row (List.mem_cons_self _ _)
    have hvrest : ∀ r' ∈ rest, validate_layout_row r' = .ok () :=
      fun r' hr' => hval r' (List.mem_cons_of_mem _ hr')
    rw [layoutLoop_cons]
    simp only [hvrow]
    by_cases hhdr : row.getD 0 "" = "output_filename"
    · have hrtail : r ∈ rest := by
        rcases List.mem_cons.mp hrmem with rfl | htail
        · exact absurd hhdr hrhdr
        · exact htail
      obtain ⟨i, e, r', hg, hh, hf, hp⟩ :=
        ih (k + 1) hvrest ⟨r, hrtail, hrhdr, e0, hrfail⟩
      refine ⟨i + 1, e, r', by simpa using hg, hh, hf, ?_⟩
      rw [if_pos hhdr, show k + (i + 1) + 1 = k + 1 + i + 1 by omega]
      exact hp
    · cases hb : layoutRowBody text_layers image_layers canvases row with
      | error e =>
        refine ⟨0, e, row, rfl, hhdr, hb, ?_⟩
        rw [if_neg hhdr]
      | ok layout =>
        have hrtail : r ∈ rest := by
          rcases List.mem_cons.mp hrmem with rfl | htail
          · rw [hb] at hrfail; cases hrfail
          · exact htail
        obtain ⟨i, e, r', hg, hh, hfr, hp⟩ :=
          ih (k + 1) hvrest ⟨r, hrtail, hrhdr, e0, hrfail⟩
        refine ⟨i + 1, e, r', by simpa using hg, hh, hfr, ?_⟩
        rw [if_neg hhdr, show k + (i + 1) + 1 = k + 1 + i + 1 by omega, hp]

/-- **C1 counterexample** — a layout tab whose data row has 31 columns
instead of 32 (a MalformedRow failure of step 1): `get_layouts` surfaces the
raw row-shape error itself, not a wrapping `layoutRowError` naming the row
index, because `_validate_layout_row` runs outside the `try` block. -/
theorem layout_malformed_row_unwrapped_counterexample :
    get_layouts "imgs" "f.ttf"
      ⟨[],
       [["bg", "100", "50", "0", "0", "bg.png"]],
       [["c1", "100", "50"]],
       [("output_filename" :: "canvas_id" :: "layer_1" :: List.replicate 29 "x"),
        ("out1" :: "c1" :: "bg" :: List.replicate 28 "")]⟩ =
      .error (.wrongColumnCount 31) := by decide

/-- **C1 (amended)** — failures of the canvas-resolution, layer-resolution
and layout-construction steps of a non-header layout row are wrapped into a
single `layoutRowError` naming the 1-based index of a genuinely failing row
within the raw layout table, with the underlying cause preserved as the
error's origin; row-shape (MalformedRow) failures, by contrast, are raised
unwrapped (see the counterexample), so the hypothesis here is that every row
passes `_validate_layout_row`. -/
theorem layout_resolution_failures_wrapped (text_layers : List TextLayer)
    (image_layers : List ImageLayer) (canvases : List Canvas)
    (rows : List (List String))
    (hval : ∀ row ∈ rows, validate_layout_row row = .ok ())
    (hex : ∃ row ∈ rows, row.getD 0 "" ≠ "output_filename" ∧
      ∃ e0, layoutRowBody text_layers image_layers canvases row = .error e0) :
    ∃ i e row, rows.get? i = some row ∧ row.getD 0 "" ≠ "output_filename" ∧
      layoutRowBody text_layers image_layers canvases row = .error e ∧
      layoutLoop text_layers image_layers canvases rows 0 =
        .error (.layoutRowError (i + 1) e) := by
  obtain ⟨i, e, row, hg, hh, hf, hp⟩ :=
    layoutLoop_fail text_layers image_layers canvases rows 0 hval hex
  rw [Nat.zero_add] at hp
  exact ⟨i, e, row, hg, hh, hf, hp⟩

/-- **C1 witness** — a layout tab whose data row (raw row 2) names a canvas
id absent from the canvas collection: the loop fails with
`layoutRowError 2` carrying the canvas-not-found cause. -/
theorem layout_resolution_failures_wrapped_witness :
    ∃ i e row,
      [("output_filename" :: "canvas_id" :: "layer_1" :: List.replicate 29 "x"),
       ("out1" :: "nope" :: "bg" :: List.replicate 29 "")].get? i = some row ∧
      row.getD 0 "" ≠ "output_filename" ∧
      layoutRowBody [] [⟨"bg", 0, 0, 100, 50, "p.png"⟩] [⟨"c1", 100, 50⟩] row =
        .error e ∧
      layoutLoop [] [⟨"bg", 0, 0, 100, 50, "p.png"⟩] [⟨"c1", 100, 50⟩]
        [("output_filename" :: "canvas_id" :: "layer_1" :: List.replicate 29 "x"),
         ("out1" :: "nope" :: "bg" :: List.replicate 29 "")] 0 =
        .error (.layoutRowError (i + 1) e) :=
  layout_resolution_failures_wrapped [] [⟨"bg", 0, 0, 100, 50, "p.png"⟩]
    [⟨"c1", 100, 50⟩] _ (by decide)
    ⟨"out1" :: "nope" :: "bg" :: List.replicate 29 "", by decide, by decide,
     .canvasNotFound "nope", by decide⟩

/-- **C6 counterexample** — a layout table consisting of exactly one data row
(no header) is rejected as empty, although it contains a data row; the very
same data row resolves successfully once a header row precedes it. -/
theorem empty_layout_table_counterexample :
    get_layouts "imgs" "f.ttf"
      ⟨[], [["bg", "100", "50", "0", "0", "bg.png"]], [["c1", "100", "50"]],
       [("out1" :: "c1" :: "bg" :: List.replicate 29 "")]⟩ =
      .error .emptyLayoutTable
    ∧ get_layouts "imgs" "f.ttf"
      ⟨[], [["bg", "100", "50", "0", "0", "bg.png"]], [["c1", "100", "50"]],
       [("output_filename" :: "canvas_id" :: "layer_1" :: List.replicate 29 "x"),
        ("out1" :: "c1" :: "bg" :: List.replicate 29 "")]⟩ =
      .ok [⟨⟨"c1", 100, 50⟩, "out1", [.image ⟨"bg", 0, 0, 100, 50, "imgs/bg.png"⟩]⟩] :=
  ⟨by decide, by decide⟩

/-- **C6 (amended)** — the layout resolver fails with the empty-layout-table
error exactly when the raw layout table has fewer than two rows; under the
convention that the first row is the header, this corresponds to "no data
rows", but the code counts raw rows, not data rows. -/
theorem empty_layout_table_iff (dir font : String) (sheet : Spreadsheet) :
    get_layouts dir font sheet = .error .emptyLayoutTable ↔
      sheet.layout_rows.length < 2 := by
  constructor
  · intro h
    by_contra hlen
    unfold get_layouts at h
    rw [if_neg hlen] at h
    cases ht : get_text_layers font sheet.text_rows with
    | error e =>
      rw [ht] at h
      simp at h
      rcases parseTab_error_shape _ _ _ sheet.text_rows 0 e ht with h1 | ⟨n, c, h2⟩
      · subst h1; simp at h
      · subst h2; simp at h
    | ok text_layers =>
      rw [ht] at h
      simp only at h
      cases him : get_image_layers dir sheet.image_rows with
      | error e =>
        rw [him] at h
        simp at h
        rcases parseTab_error_shape _ _ _ sheet.image_rows 0 e him with h1 | ⟨n, c, h2⟩
        · subst h1; simp at h
        · subst h2; simp at h
      | ok image_layers =>
        rw [him] at h
        simp only at h
        split_ifs at h with hie
        · simp at h
        · cases hca : get_canvases sheet.canvas_rows with
          | error e =>
            rw [hca] at h
            simp at h
            rcases parseTab_error_shape _ _ _ sheet.canvas_rows 0 e hca with h1 | ⟨n, c, h2⟩
            · subst h1; simp at h
            · subst h2; simp at h
          | ok canvases =>
            rw [hca] at h
            simp only at h
            split_ifs at h with hce
            · simp at h
            · rcases layoutLoop_error_shape text_layers image_layers canvases
                sheet.layout_rows 0 _ h with h1 | ⟨n, h2⟩ | h3 | ⟨n, c, h4⟩ <;>
                simp_all
  · intro h
    unfold get_layouts
    rw [if_pos h]

/-- Under non-empty image and canvas collections, a failing `get_layouts`
never fails with either missing-required-data error. -/
lemma get_layouts_error_not_missing (dir font : String) (sheet : Spreadsheet)
    (images : List ImageLayer) (canvases : List Canvas)
    (himg : get_image_layers dir sheet.image_rows = .ok images)
    (himages : images ≠ [])
    (hcan : get_canvases sheet.canvas_rows = .ok canvases)
    (hcanvases : canvases ≠ []) (e : SheetError)
    (h : get_layouts dir font sheet = .error e) :
    e ≠ .missingImageLayer ∧ e ≠ .missingCanvas := by
  unfold get_layouts at h
  split_ifs at h with hlen
  · simp at h
    simp [← h]
  · cases ht : get_text_layers font sheet.text_rows with
    | error e' =>
      rw [ht] at h
      simp at h
      rcases parseTab_error_shape _ _ _ sheet.text_rows 0 e' ht with h1 | ⟨n, c, h2⟩
      · subst h; subst h1; exact ⟨by simp, by simp⟩
      · subst h; subst h2; exact ⟨by simp, by simp⟩
    | ok text_layers =>
      rw [ht] at h
      simp only at h
      rw [himg] at h
      simp only [if_neg himages] at h
      rw [hcan] at h
      simp only [if_neg hcanvases] at h
      rcases layoutLoop_error_shape text_layers images canvases
        sheet.layout_rows 0 _ h with h1 | ⟨n, h2⟩ | h3 | ⟨n, c, h4⟩ <;> simp_all

/-- **C7** — The layout resolver raises the missing-required-data error
naming the empty collection whenever (past the layout-tab length check and a
successful text parse) the parsed image-element collection is empty, or the
image collection is non-empty and the parsed canvas collection is empty —
even if no layout row references an image element; and with non-empty image
and canvas collections, no run ever produces either missing-required-data
error, so an empty text-element collection alone never triggers one. -/
theorem missing_required_data_checks :
    (∀ (dir font : String) (sheet : Spreadsheet) (text_layers : List TextLayer),
      ¬sheet.layout_rows.length < 2 →
      get_text_layers font sheet.text_rows = .ok text_layers →
      get_image_layers dir sheet.image_rows = .ok [] →
      get_layouts dir font sheet = .error .missingImageLayer)
    ∧ (∀ (dir font : String) (sheet : Spreadsheet) (text_layers : List TextLayer)
        (images : List ImageLayer),
      ¬sheet.layout_rows.length < 2 →
      get_text_layers font sheet.text_rows = .ok text_layers →
      get_image_layers dir sheet.image_rows = .ok images → images ≠ [] →
      get_canvases sheet.canvas_rows = .ok [] →
      get_layouts dir font sheet = .error .missingCanvas)
    ∧ (∀ (dir font : String) (sheet : Spreadsheet) (images : List ImageLayer)
        (canvases : List Canvas),
      get_image_layers dir sheet.image_rows = .ok images → images ≠ [] →
      get_canvases sheet.canvas_rows = .ok canvases → canvases ≠ [] →
      get_layouts dir font sheet ≠ .error .missingImageLayer ∧
        get_layouts dir font sheet ≠ .error .missingCanvas) := by
  refine ⟨?_, ?_, ?_⟩
  · intro dir font sheet text_layers hlen htext himg
    unfold get_layouts
    rw [if_neg hlen, htext]
    simp only
    rw [himg]
    simp
  · intro dir font sheet text_layers images hlen htext himg himages hcan
    unfold get_layouts
    rw [if_neg hlen, htext]
    simp only
    rw [himg]
    simp only [if_neg himages]
    rw [hcan]
    simp
  · intro dir font sheet images canvases himg himages hcan hcanvases
    constructor
    · intro h
      exact (get_layouts_error_not_missing dir font sheet images canvases
        himg himages hcan hcanvases _ h).1 rfl
    · intro h
      exact (get_layouts_error_not_missing dir font sheet images canvases
        himg himages hcan hcanvases _ h).2 rfl

/-- **C7 witness** — an empty image table triggers the missing-image error;
a non-empty image table with an empty canvas table triggers the
missing-canvas error; and with one image layer and one canvas but an empty
text table, neither missing-required-data error occurs. -/
theorem missing_required_data_checks_witness :
    get_layouts "imgs" "f.ttf"
      ⟨[], [], [["c1", "100", "50"]],
       [("output_filename" :: "canvas_id" :: "layer_1" :: List.replicate 29 "x"),
        ("out1" :: "c1" :: "bg" :: List.replicate 29 "")]⟩ =
      .error .missingImageLayer
    ∧ get_layouts "imgs" "f.ttf"
      ⟨[], [["bg", "100", "50", "0", "0", "bg.png"]], [],
       [("output_filename" :: "canvas_id" :: "layer_1" :: List.replicate 29 "x"),
        ("out1" :: "c1" :: "bg" :: List.replicate 29 "")]⟩ =
      .error .missingCanvas
    ∧ (get_layouts "imgs" "f.ttf"
      ⟨[], [["bg", "100", "50", "0", "0", "bg.png"]], [["c1", "100", "50"]],
       [("output_filename" :: "canvas_id" :: "layer_1" :: List.replicate 29 "x"),
        ("out1" :: "c1" :: "bg" :: List.replicate 29 "")]⟩ ≠
        .error .missingImageLayer
      ∧ get_layouts "imgs" "f.ttf"
      ⟨[], [["bg", "100", "50", "0", "0", "bg.png"]], [["c1", "100", "50"]],
       [("output_filename" :: "canvas_id" :: "layer_1" :: List.replicate 29 "x"),
        ("out1" :: "c1" :: "bg" :: List.replicate 29 "")]⟩ ≠
        .error .missingCanvas) :=
  ⟨missing_required_data_checks.1 "imgs" "f.ttf" _ [] (by decide) (by decide) (by decide),
   missing_required_data_checks.2.1 "imgs" "f.ttf" _ []
     [⟨"bg", 0, 0, 100, 50, "imgs/bg.png"⟩] (by decide) (by decide) (by decide)
     (by decide) (by decide),
   missing_required_data_checks.2.2 "imgs" "f.ttf" _
     [⟨"bg", 0, 0, 100, 50, "imgs/bg.png"⟩] [⟨"c1", 100, 50⟩]
     (by decide) (by decide) (by decide) (by decide)⟩

/-- A dummy environment of PIL operations, for concrete instantiation. -/
def trivialPILEnv : PILEnv :=
  ⟨fun _ => imageNew 0 0 (0, 0, 0, 0),
   fun img _ => img,
   fun img _ _ => img,
   fun img _ => img,
   fun img _ _ _ _ _ => img⟩

/-- **C9** — For every layout, rendering starts from a freshly allocated
raster of exactly `canvas.width × canvas.height` whose every pixel is fully
transparent white `(255, 255, 255, 0)`, with the layers then drawn onto that
buffer; each layout in the batch renders from its own such buffer. -/
theorem render_starts_from_fresh_transparent_canvas (env : PILEnv)
    (layouts : List Layout) (i : Nat) (layout : Layout)
    (hget : layouts.get? i = some layout) :
    (generateCreatives env layouts).get? i =
      some (addLayers env
        (imageNew layout.canvas.width layout.canvas.height
          defaultBackgroundRGBAColorWhite) layout.layers)
    ∧ (imageNew layout.canvas.width layout.canvas.height
        defaultBackgroundRGBAColorWhite).width = layout.canvas.width
    ∧ (imageNew layout.canvas.width layout.canvas.height
        defaultBackgroundRGBAColorWhite).height = layout.canvas.height
    ∧ (imageNew layout.canvas.width layout.canvas.height
        defaultBackgroundRGBAColorWhite).pixels.length = layout.canvas.height.toNat
    ∧ (∀ r ∈ (imageNew layout.canvas.width layout.canvas.height
        defaultBackgroundRGBAColorWhite).pixels,
        r.length = layout.canvas.width.toNat ∧ ∀ px ∈ r, px = (255, 255, 255, 0)) := by
  refine ⟨?_, rfl, rfl, List.length_replicate _ _, ?_⟩
  · unfold generateCreatives
    rw [List.get?_map, hget]
    rfl
  · intro r hr
    have hrow := List.eq_of_mem_replicate hr
    subst hrow
    exact ⟨List.length_replicate _ _, fun px hpx => List.eq_of_mem_replicate hpx⟩

/-- **C9 witness** — a 2×1 canvas with a single non-drawable layer, rendered
with the dummy environment. -/
theorem render_starts_from_fresh_transparent_canvas_witness :
    (generateCreatives trivialPILEnv [⟨⟨"c1", 2, 1⟩, "out", [.other "x" 0 0]⟩]).get? 0 =
      some (addLayers trivialPILEnv
        (imageNew 2 1 defaultBackgroundRGBAColorWhite) [.other "x" 0 0])
    ∧ (imageNew 2 1 defaultBackgroundRGBAColorWhite).width = 2
    ∧ (imageNew 2 1 defaultBackgroundRGBAColorWhite).height = 1
    ∧ (imageNew 2 1 defaultBackgroundRGBAColorWhite).pixels.length = (1 : Int).toNat
    ∧ (∀ r ∈ (imageNew 2 1 defaultBackgroundRGBAColorWhite).pixels,
        r.length = (2 : Int).toNat ∧ ∀ px ∈ r, px = (255, 255, 255, 0)) :=
  render_starts_from_fresh_transparent_canvas trivialPILEnv
    [⟨⟨"c1", 2, 1⟩, "out", [.other "x" 0 0]⟩] 0 ⟨⟨"c1", 2, 1⟩, "out", [.other "x" 0 0]⟩ rfl

/-- **C10** — A layer that is neither an image layer nor a text layer leaves
the accumulated image exactly as it is (no drawing, no error), and a whole
layer sequence composites identically to the same sequence with all such
layers removed. -/
theorem non_drawable_layers_skipped :
    (∀ (env : PILEnv) (image : Img) (layer_id : String) (position_x position_y : Int),
      addLayer env image (.other layer_id position_x position_y) = image)
    ∧ (∀ (env : PILEnv) (image : Img) (layers : List Layer),
      addLayers env image layers =
        addLayers env image (layers.filter (fun l =>
          match l with
          | .other _ _ _ => false
          | _ => true))) := by
  refine ⟨fun env image lid x y => rfl, fun env image layers => ?_⟩
  induction layers generalizing image with
  | nil => rfl
  | cons l rest ih =>
    cases l with
    | image il => simpa [addLayers, List.filter] using ih (addLayer env image (.image il))
    | text tl => simpa [addLayers, List.filter] using ih (addLayer env image (.text tl))
    | other lid x y => simpa [addLayers, List.filter] using ih image

end ImageMix
